import Mathlib

/-!
Shallow embedding of the apes.js HTTP server core (`src/lib/http-server.js`,
class variant; `src/unnamed/part_003`, namespace variant) together with the
constants of `src/lib/constants.js`, and proofs of the specification claims
about it.  JavaScript numbers that are used as integers are modelled as `Int`
(or `Nat` where the source only ever holds non-negative values); JavaScript
`undefined`/absent values are modelled as `Option`; JSON-ish objects are
modelled by the inductive `JVal`.
-/

/-- A JSON-like JavaScript value, used for request/response bodies and
configuration objects.  Objects are association lists in insertion order,
matching the enumeration order of JavaScript object literals. -/
inductive JVal where
  | str (s : String)
  | num (n : Int)
  | boolean (b : Bool)
  | null
  | arr (xs : List JVal)
  | obj (fields : List (String × JVal))

/-- JavaScript truthiness of an optional string: `undefined` and the empty
string are falsy, every other string is truthy. -/
def strTruthy : Option String → Bool
  | none => false
  | some s => s ≠ ""

/-- The JavaScript `a || b` operator on optional strings: returns `a` when it
is truthy, `b` otherwise. -/
def jsOrStr (a b : Option String) : Option String :=
  if strTruthy a then a else b

namespace Constants

/-- Constants.Utils.S_TO_MS from `src/lib/constants.js`. -/
def S_TO_MS : Nat := 1000

/-- Constants.HTTP.DEFAULT_CORS_MAX_AGE from `src/lib/constants.js` (one year). -/
def DEFAULT_CORS_MAX_AGE : Nat := 31536000

namespace Statuses

/-- Constants.HTTP.Statuses.OK. -/
def OK : Int := 200

/-- Constants.HTTP.Statuses.NO_CONTENT. -/
def NO_CONTENT : Int := 204

/-- Constants.HTTP.Statuses.FOUND. -/
def FOUND : Int := 302

/-- Constants.HTTP.Statuses.BAD_REQUEST. -/
def BAD_REQUEST : Int := 400

/-- Constants.HTTP.Statuses.NOT_FOUND. -/
def NOT_FOUND : Int := 404

/-- Constants.HTTP.Statuses.ERROR. -/
def ERROR : Int := 500

end Statuses

namespace StatusClasses

/-- Constants.HTTP.StatusClasses.SEPARATOR. -/
def SEPARATOR : Int := 100

/-- Constants.HTTP.StatusClasses.REDIRECT. -/
def REDIRECT : Int := 3

/-- Constants.HTTP.StatusClasses.CLIENT_ERROR. -/
def CLIENT_ERROR : Int := 4

/-- Constants.HTTP.StatusClasses.SERVER_ERROR. -/
def SERVER_ERROR : Int := 5

end StatusClasses

end Constants

/-- The severity methods of the requests logger that `logRequest` can select. -/
inductive LogMethod where
  | info
  | warn
  | error
  | debug
deriving DecidableEq

/-- The log-severity selection of `HTTPServer.logRequest`
(`src/lib/http-server.js` lines 377-393, identically `src/unnamed/part_003`
lines 344-360): `switch(Math.floor(code / SEPARATOR))` with cases
`CLIENT_ERROR -> warn`, `SERVER_ERROR -> error`, `REDIRECT -> debug`, default
`info`.  `Math.floor` of an integer quotient is floor division, `Int.fdiv`. -/
def logRequestMethod (code : Int) : LogMethod :=
  let cls := Int.fdiv code Constants.StatusClasses.SEPARATOR
  if cls = Constants.StatusClasses.CLIENT_ERROR then .warn
  else if cls = Constants.StatusClasses.SERVER_ERROR then .error
  else if cls = Constants.StatusClasses.REDIRECT then .debug
  else .info

/-- An error value reaching the Express error-handling middleware.  JavaScript
errors here are either a `SyntaxError` instance (thrown by the body-check
middleware or the JSON body parser), a plain string (route handlers in this
repository throw strings), or any other Error-like object with a name, a
message and an optional raw stack string. -/
inductive JSError where
  | synErr (msg : String) (stack : Option String)
  | strErr (s : String)
  | objErr (name : String) (msg : String) (stack : Option String)

/-- The result of the JavaScript test `error instanceof SyntaxError`. -/
def isSynError : JSError → Bool
  | .synErr _ _ => true
  | _ => false

/-- The `name` property of a (non-string) error: `SyntaxError` instances
report "SyntaxError". -/
def errorName : JSError → String
  | .synErr _ _ => "SyntaxError"
  | .strErr s => s
  | .objErr n _ _ => n

/-- The `message` property of an error value. -/
def errorMessage : JSError → String
  | .synErr m _ => m
  | .strErr s => s
  | .objErr _ m _ => m

/-- The `stack` property of a (non-string) error value. -/
def errorStack : JSError → Option String
  | .synErr _ st => st
  | .strErr _ => none
  | .objErr _ _ st => st

/-- The stack-frame cleanup of `errorHandler` (`src/lib/http-server.js` line
366): `s.trim().replace(/^at\s/, "")` — trim, then strip one leading `at`
followed by a single whitespace character. -/
def stripAtMarker (s : String) : String :=
  match s.toList with
  | 'a' :: 't' :: c :: rest => if c.isWhitespace then String.mk rest else s
  | _ => s

/-- The stack formatting of `errorHandler` (`src/lib/http-server.js` lines
363-366): `error.stack ? error.stack.split("\n") : []`, then `shift()`
(dropping the first line), then per-frame cleanup. -/
def formatStack (stack : Option String) : List String :=
  match stack with
  | none => []
  | some st => ((st.splitOn "\n").drop 1).map (fun s => stripAtMarker s.trim)

/-- The `message` argument of `sendGeneralError`: either a JavaScript string
or an object (modelled by its fields). -/
inductive MsgArg where
  | strMsg (s : String)
  | objMsg (fields : List (String × JVal))

/-- The effect of `Object.assign(message, {code})` on the fields of the
`message` object: the `code` property is overwritten in place when present,
appended otherwise.  The mutation happens on the caller's object itself. -/
def assignCode (fields : List (String × JVal)) (code : Int) : List (String × JVal) :=
  if "code" ∈ fields.map Prod.fst then
    fields.map (fun f => if f.1 = "code" then ("code", JVal.num code) else f)
  else
    fields ++ [("code", JVal.num code)]

/-- Association-list lookup of a property of a `JVal.obj` field list (the
value JavaScript property access would observe). -/
def lookupField : List (String × JVal) → String → Option JVal
  | [], _ => none
  | f :: rest, k => if f.1 = k then some f.2 else lookupField rest k

/-- The observable outcome of a call to `sendGeneralError`: the envelope
content it forwards to `sendResponse`, and the post-call state of the
`message` argument (which `Object.assign` mutates when it is an object). -/
structure GeneralErrorCall where
  content : JVal
  messageAfter : MsgArg

/-- HTTPServer.sendGeneralError (`src/lib/http-server.js` lines 321-324):
`const body = typeof message === "object" ? Object.assign(message, {code}) :
{code, message}; return this.sendResponse(req, res, code, single ? {error:
body} : {errors: [body]})`. -/
def sendGeneralError (code : Int) (message : MsgArg) (single : Bool) : GeneralErrorCall :=
  let body : List (String × JVal) :=
    match message with
    | .objMsg fields => assignCode fields code
    | .strMsg s => [("code", JVal.num code), ("message", JVal.str s)]
  { content :=
      if single then JVal.obj [("error", JVal.obj body)]
      else JVal.obj [("errors", JVal.arr [JVal.obj body])],
    messageAfter :=
      match message with
      | .objMsg fields => .objMsg (assignCode fields code)
      | .strMsg s => .strMsg s }

/-- An HTTP response as observed by the client: status code and JSON body. -/
structure Response where
  status : Int
  body : JVal

/-- The outcome of a call to the `errorHandler` middleware: the response it
writes (none when it is a no-op because headers were already sent) and whether
it logged the error through the application logger. -/
structure HandlerResult where
  response : Option Response
  loggedError : Bool

/-- HTTPServer.errorHandler (`src/lib/http-server.js` lines 335-367): no-op
if `res.headersSent`; 400 envelope for a `SyntaxError` on a POST request;
otherwise the error is logged and the response is the generic production
message, the string error wrapped by `sendGeneralError`, or the full
type/message/stack object in non-production. -/
def errorHandler (production headersSent : Bool) (method : String) (error : JSError) :
    HandlerResult :=
  let errorStatusCode := Constants.Statuses.ERROR
  if headersSent then { response := none, loggedError := false }
  else if isSynError error && (method == "POST") then
    { response := some
        { status := Constants.Statuses.BAD_REQUEST,
          body := JVal.obj [("errors", JVal.arr [JVal.obj
            [("code", JVal.num Constants.Statuses.BAD_REQUEST),
             ("message", JVal.str "Invalid JSON POST data received."),
             ("error", JVal.str (errorMessage error))]])] },
      loggedError := false }
  else if production then
    { response := some
        { status := errorStatusCode,
          body := (sendGeneralError errorStatusCode
            (.strMsg "Internal Application Error.") false).content },
      loggedError := true }
  else
    match error with
    | .strErr s =>
      { response := some
          { status := errorStatusCode,
            body := (sendGeneralError errorStatusCode (.strMsg s) false).content },
        loggedError := true }
    | e =>
      { response := some
          { status := errorStatusCode,
            body := JVal.obj
              [("type", JVal.str (errorName e)),
               ("message", JVal.str (errorMessage e)),
               ("stack", JVal.arr ((formatStack (errorStack e)).map JVal.str))] },
        loggedError := true }

/-- One primitive mutation of the Express response object performed by
`sendResponse`. -/
inductive ResAction where
  | setStatus (code : Int)
  | setType (t : String)
  | sendBody (content : JVal)
  | endNoBody

/-- Whether a response action writes the response out (both `res.send` and
`res.end` finalize the response body). -/
def isWriteAction : ResAction → Bool
  | .sendBody _ => true
  | .endNoBody => true
  | _ => false

/-- The response-object actions performed by one call of
HTTPServer.sendResponse (`src/lib/http-server.js` lines 295-309): default the
code to 200 when falsy, `res.status(code)`, `res.type("text")` for string
content, then `res.send(content)` (or `res.end()` for null/undefined
content).  The function takes no response state: the source never consults
`res.headersSent`, so the same actions are performed on every call.
(`logRequest` is also invoked before writing; its severity selection is
modelled by `logRequestMethod`.) -/
def sendResponseActions (code : Option Int) (content : Option JVal) : List ResAction :=
  let code' : Int :=
    match code with
    | none => Constants.Statuses.OK
    | some c => if c = 0 then Constants.Statuses.OK else c
  [ResAction.setStatus code'] ++
    (match content with
     | some (JVal.str _) => [ResAction.setType "text"]
     | _ => []) ++
    (match content with
     | some c => [ResAction.sendBody c]
     | none => [ResAction.endNoBody])

/-- Decimal digit character (the character for digit `n < 10`). -/
def digitChar (n : Nat) : Char := Char.ofNat (48 + n)

/-- Fuel-driven decimal digits of `n`, most significant first.  The fuel is an
upper bound on the number of digits; `natDigits` supplies enough.  Structural
recursion on the fuel keeps the function kernel-reducible. -/
def natDigitsAux : Nat → Nat → List Char
  | 0, _ => []
  | fuel + 1, n =>
    if n < 10 then [digitChar n]
    else natDigitsAux fuel (n / 10) ++ [digitChar (n % 10)]

/-- Decimal digits of a natural number, most significant first. -/
def natDigits (n : Nat) : List Char := natDigitsAux (n + 1) n

/-- Decimal string of a natural number (the JavaScript `toString` of a
non-negative integer-valued number). -/
def natToString (n : Nat) : String := String.mk (natDigits n)

/-- Decimal string of an integer (the JavaScript `toString` of an
integer-valued number). -/
def intToString (n : Int) : String :=
  if n < 0 then "-" ++ natToString n.natAbs else natToString n.natAbs

/-- Whether every character of a list is a decimal digit. -/
def allDigits (l : List Char) : Bool := l.all Char.isDigit

/-- Characters allowed after the leading digit of a decimal numeral: more
digits, optionally followed by a decimal point and at least one digit. -/
def numericRest : List Char → Bool
  | [] => true
  | c :: rest =>
    if c = '.' then !rest.isEmpty && allDigits rest
    else c.isDigit && numericRest rest

/-- A decimal numeral: one or more digits, optionally followed by a decimal
point and one or more digits. -/
def numericChars : List Char → Bool
  | [] => false
  | c :: rest => c.isDigit && numericRest rest

/-- Whether a string is a plain decimal numeral. -/
def isNumericString (s : String) : Bool := numericChars s.toList

/-- Fractional-millisecond digits as JavaScript number printing would render
them (shortest form, trailing zeros omitted), for `0 < frac < 1000`
microseconds. -/
def fracChars (frac : Nat) : List Char :=
  if frac % 10 ≠ 0 then
    [digitChar (frac / 100), digitChar (frac / 10 % 10), digitChar (frac % 10)]
  else if frac % 100 ≠ 0 then
    [digitChar (frac / 100), digitChar (frac / 10 % 10)]
  else
    [digitChar (frac / 100)]

/-- Characters of `process.uptime() * S_TO_MS` as interpolated into the
`X-Up-Time` header.  The process uptime is modelled at microsecond resolution
(`uptimeMicros`), so the value in milliseconds is `uptimeMicros / 1000` with
the fractional part printed only when non-zero, as JavaScript does. -/
def msChars (uptimeMicros : Nat) : List Char :=
  if uptimeMicros % 1000 = 0 then natDigits (uptimeMicros / 1000)
  else natDigits (uptimeMicros / 1000) ++ '.' :: fracChars (uptimeMicros % 1000)

/-- String form of the uptime expressed in milliseconds. -/
def msString (uptimeMicros : Nat) : String := String.mk (msChars uptimeMicros)

/-- The response produced by the diagnostic `GET /ping` route. -/
structure PingResponse where
  status : Int
  contentType : String
  upTime : String
  body : String

/-- The `GET /ping` handler (`src/lib/http-server.js` lines 95-97, identically
`src/unnamed/part_003` lines 83-85):
`res.status(OK).set({"Content-Type": "text/plain", "X-Up-Time":
uptime-in-ms + "ms"}).end("pong")`. -/
def pingHandler (uptimeMicros : Nat) : PingResponse :=
  { status := Constants.Statuses.OK,
    contentType := "text/plain",
    upTime := msString uptimeMicros ++ "ms",
    body := "pong" }

/-- One action of the termination-signal handler installed by
`HTTPServer.execute`. -/
inductive ShutdownAction where
  | destroy (socket : Nat)
  | closeListener

/-- How the promise returned by `execute` settles. -/
inductive ExecOutcome where
  | resolved
  | rejected (error : String)

/-- The termination signals handled by `execute` (`src/lib/http-server.js`
line 140). -/
def terminationSignals : List String := ["SIGTERM", "SIGINT", "SIGUSR2"]

/-- The body of the signal handler (`src/lib/http-server.js` lines 142-151):
destroy every socket currently in the tracked set, then ask the listener to
close.  Sockets are identified by numeric ids in the model. -/
def signalHandlerActions (sockets : List Nat) : List ShutdownAction :=
  sockets.map ShutdownAction.destroy ++ [ShutdownAction.closeListener]

/-- The close callback (`src/lib/http-server.js` lines 148-150):
`error ? reject(error) : resolve()`. -/
def closeSettle (closeError : Option String) : ExecOutcome :=
  match closeError with
  | some e => .rejected e
  | none => .resolved

/-- The complete observable effect of one termination signal while listening:
the handler's action sequence and how the pending `execute` promise settles
given the error reported by the close callback.  The same handler is
installed for each of the three signals, so the signal name does not affect
the behavior. -/
def onTerminationSignal (_signal : String) (sockets : List Nat)
    (closeError : Option String) : List ShutdownAction × ExecOutcome :=
  (signalHandlerActions sockets, closeSettle closeError)

/-- The `Access-Control-*` headers set by the CORS middleware (the
`Allow-Origin` value is kept optional because JavaScript can pass `undefined`
through `||`). -/
structure CorsHeaders where
  allowOrigin : Option String
  allowHeaders : String
  allowMethods : String
  maxAge : String

/-- The JavaScript `a || b` on an optional number where `b` is a constant:
`0`, like `undefined`, is falsy. -/
def jsOrNat (a : Option Nat) (b : Nat) : Nat :=
  match a with
  | some m => if m = 0 then b else m
  | none => b

/-- The per-request middleware of the class variant's `addCORSHandling`
(`src/lib/http-server.js` lines 193-207): `allowedOrigin = origin ||
req.header("Origin")`; when that is truthy the four `Access-Control-*`
headers are set, with `Access-Control-Allow-Origin: req.header("Origin") ||
origin`; otherwise no header is set (`none`). -/
def addCORSHandling (origin headers methods : Option String) (maxAge : Option Nat)
    (reqOrigin : Option String) : Option CorsHeaders :=
  let allowedOrigin := jsOrStr origin reqOrigin
  if strTruthy allowedOrigin then
    some { allowOrigin := jsOrStr reqOrigin origin,
           allowHeaders := (jsOrStr headers (some "*")).getD "*",
           allowMethods := (jsOrStr methods (some "GET, POST")).getD "GET, POST",
           maxAge := natToString (jsOrNat maxAge Constants.DEFAULT_CORS_MAX_AGE) }
  else none

/-- Whether a character is matched by `.` in a JavaScript regular expression:
anything except a line terminator. -/
def dotMatch (c : Char) : Bool :=
  !(c = '\n' || c = '\r' || c = Char.ofNat 0x2028 || c = Char.ofNat 0x2029)

/-- List-of-characters prefix test. -/
def startsWithL : List Char → List Char → Bool
  | [], _ => true
  | _ :: _, [] => false
  | p :: ps, c :: cs => p = c && startsWithL ps cs

/-- Strip a literal prefix from a character list, `none` when it does not
start with it. -/
def stripL : List Char → List Char → Option (List Char)
  | [], l => some l
  | _ :: _, [] => none
  | p :: ps, c :: cs => if p = c then stripL ps cs else none

/-- Matching of the regex fragment `.+\+json` at the current position, having
already consumed at least one `.`-matched character: either the current
character is the closing literal `+` and `json` follows, or it is consumed by
`.+` and matching continues. -/
def plusJson : List Char → Bool
  | [] => false
  | c :: rest =>
    (c = '+' && startsWithL "json".toList rest) || (dotMatch c && plusJson rest)

/-- The test of Constants.HTTP.VALID_JSON_BODY, the regular expression
`/^application\/(.+\+)?json/` (`src/lib/constants.js` line 20): the string
must start with `application/`, then either `json` directly or one-or-more
`.`-matched characters ending in a literal `+` and then `json` (the regex is
not anchored at the end). -/
def validJsonBodyTest (s : String) : Bool :=
  match stripL "application/".toList s.toList with
  | none => false
  | some t =>
    startsWithL "json".toList t ||
      (match t with
       | [] => false
       | c :: rest => dotMatch c && plusJson rest)

/-- The string `RegExp.test` actually sees for the Content-Type header: a
request without the header yields `undefined`, which `test` coerces to the
string "undefined". -/
def contentTypeHeaderString (h : Option String) : String := h.getD "undefined"

/-- An inbound HTTP request, as far as the body-parsing middleware is
concerned: its method, its Content-Type header and the decoded text of its
payload. -/
structure Request where
  method : String
  contentType : Option String
  rawBody : String

/-- The message of the SyntaxError thrown by the body-check middleware
(`src/lib/http-server.js` line 85), with `validJsonBody.source`
interpolated. -/
def validJsonBodyMessage : String :=
  "Content-Type header must be match regular expression /^application\\/(.+\\+)?json/ and the data must a valid encoded JSON."

/-- Outcome of the body-handling middleware stages of `prepare`
(`src/lib/http-server.js` lines 79-88).  `jsonHandled`: the Content-Type
matched `VALID_JSON_BODY`, so the JSON parser consumed the body (its own
parse failures are a separate concern); `routed`: the request proceeds past
the check middleware towards `/ping` and the route handlers; `raised`: the
check middleware threw a SyntaxError synchronously, before any route
handler. -/
inductive PipeOutcome where
  | jsonHandled (raw : String)
  | routed (textBody : String)
  | raised (e : JSError)

/-- The body-parsing middleware chain: `bodyParser.json` applies exactly when
`VALID_JSON_BODY.test(req.header("Content-Type"))`; `bodyParser.text` applies
to every other request, after which the check middleware throws a SyntaxError
when the decoded text body is a non-empty string. -/
def processBody (r : Request) : PipeOutcome :=
  if validJsonBodyTest (contentTypeHeaderString r.contentType) then
    .jsonHandled r.rawBody
  else if r.rawBody.length ≠ 0 then
    .raised (.synErr validJsonBodyMessage none)
  else
    .routed r.rawBody

/-- What the client receives when the body middleware raises: Express routes
the thrown error to `errorHandler` (headers are not yet sent at this point).
`none` means the request continued into the rest of the pipeline instead. -/
def pipelineErrorResponse (production : Bool) (r : Request) : Option HandlerResult :=
  match processBody r with
  | .raised e => some (errorHandler production false r.method e)
  | _ => none

/-- HTTPServer.defaultPort (`src/lib/http-server.js` line 409, identically
`src/unnamed/part_003` line 30). -/
def defaultPort : Int := 21080

/-- Decimal digit accumulation for `parseIntJS`. -/
def decToNat (l : List Char) : Nat :=
  l.foldl (fun acc c => acc * 10 + (c.toNat - 48)) 0

/-- Hexadecimal digit test for `parseIntJS`. -/
def isHexDigitJS (c : Char) : Bool :=
  c.isDigit || ('a' ≤ c && c ≤ 'f') || ('A' ≤ c && c ≤ 'F')

/-- Hexadecimal digit value for `parseIntJS`. -/
def hexDigitVal (c : Char) : Nat :=
  if c.isDigit then c.toNat - 48
  else if 'a' ≤ c && c ≤ 'f' then c.toNat - 87
  else c.toNat - 55

/-- Hexadecimal digit accumulation for `parseIntJS`. -/
def hexToNat (l : List Char) : Nat :=
  l.foldl (fun acc c => acc * 16 + hexDigitVal c) 0

/-- JavaScript `parseInt(s, 0)`: skip leading whitespace, take an optional
sign, infer the radix (16 after a `0x`/`0X` prefix, 10 otherwise), parse the
longest valid digit prefix, and yield NaN (`none`) when there is none. -/
def parseIntJS (s : String) : Option Int :=
  let l := s.toList.dropWhile Char.isWhitespace
  let sign : Int := match l with | '-' :: _ => -1 | _ => 1
  let l := match l with | '-' :: rest => rest | '+' :: rest => rest | _ => l
  match l with
  | '0' :: 'x' :: rest =>
    (if (rest.takeWhile isHexDigitJS).isEmpty then none
     else some (sign * (hexToNat (rest.takeWhile isHexDigitJS) : Int)))
  | '0' :: 'X' :: rest =>
    (if (rest.takeWhile isHexDigitJS).isEmpty then none
     else some (sign * (hexToNat (rest.takeWhile isHexDigitJS) : Int)))
  | l' =>
    (if (l'.takeWhile Char.isDigit).isEmpty then none
     else some (sign * (decToNat (l'.takeWhile Char.isDigit) : Int)))

/-- The port computed by the class variant's `prepare`
(`src/lib/http-server.js` line 70):
`parseInt(process.env.PORT || this.configuration.httpServer.port, 0)` — the
environment value when truthy, the (stringified) configuration port
otherwise. -/
def preparePort (envPORT : Option String) (configPort : Int) : Option Int :=
  if strTruthy envPORT then parseIntJS (envPORT.getD "")
  else parseIntJS (intToString configPort)

/-- The port the class variant's `execute` passes to `listen`
(`src/lib/http-server.js` line 126): `this.configuration.httpServer.port`,
not the `this.port` computed in `prepare`. -/
def executeListenPort (configPort : Int) : Int := configPort

/-- The port computed by the namespace variant's `_configureExpress`
(`src/unnamed/part_003` lines 430-432):
`server.port = parseInt(process.env.PORT || server.configuration.port, 0)`,
replaced by `HTTPServer.defaultPort` when negative or NaN.  `run` then
passes exactly this value to `listen` (`src/unnamed/part_003` line 121). -/
def configureExpressPort (envPORT : Option String) (configPort : Int) : Int :=
  let p :=
    if strTruthy envPORT then parseIntJS (envPORT.getD "")
    else parseIntJS (intToString configPort)
  match p with
  | none => defaultPort
  | some v => if v < 0 then defaultPort else v

/-- JavaScript truthiness of an optional number: `undefined` and `0` are
falsy, every other integer-valued number is truthy (negative numbers
included). -/
def numTruthy : Option Int → Bool
  | none => false
  | some p => p ≠ 0

/-- The `ssl` section of the HTTP server configuration. -/
structure SslConf where
  enabled : Bool
  key : Option String
  certificate : Option String

/-- The `httpServer` section of the application configuration. -/
structure HttpServerConf where
  port : Option Int
  maxBodySize : Option String
  ssl : Option SslConf

/-- The loaded application configuration: the `httpServer` section plus all
remaining top-level entries. -/
structure AppConfiguration where
  httpServer : Option HttpServerConf
  other : List (String × JVal)

/-- The empty object the class variant substitutes for a missing `httpServer`
section. -/
def emptyHttpConf : HttpServerConf :=
  { port := none, maxBodySize := none, ssl := none }

/-- The ssl default of `sanitizeConfiguration` (`src/lib/http-server.js`
lines 247-248): a missing `ssl` section becomes `{enabled: false}`. -/
def sanitizeSsl (hs : HttpServerConf) : HttpServerConf :=
  if hs.ssl.isNone then
    { hs with ssl := some { enabled := false, key := none, certificate := none } }
  else hs

/-- The `httpServer`-section part of `sanitizeConfiguration`
(`src/lib/http-server.js` lines 244-248): a falsy `port` (absent or `0` —
JavaScript number truthiness; negative numbers are truthy) becomes
`defaultPort`, then the ssl default is applied. -/
def sanitizeHttp (hs : HttpServerConf) : HttpServerConf :=
  sanitizeSsl (if numTruthy hs.port then hs else { hs with port := some defaultPort })

/-- HTTPServer.sanitizeConfiguration (`src/lib/http-server.js` lines
240-251): substitute `{}` for a missing `httpServer` section, then apply the
port and ssl defaults; every other part of the configuration is left as
is. -/
def sanitizeConfiguration (c : AppConfiguration) : AppConfiguration :=
  { c with httpServer := some (sanitizeHttp (c.httpServer.getD emptyHttpConf)) }

/-- Claim C5: for every integer status code `c`, `logRequest` selects severity
`warn` iff `400 <= c < 500`, `error` iff `500 <= c < 600`, `debug` iff
`300 <= c < 400`, and `info` in every other case. -/
theorem logRequest_severity_selection (c : Int) :
    (logRequestMethod c = .warn ↔ 400 ≤ c ∧ c < 500) ∧
    (logRequestMethod c = .error ↔ 500 ≤ c ∧ c < 600) ∧
    (logRequestMethod c = .debug ↔ 300 ≤ c ∧ c < 400) ∧
    (logRequestMethod c = .info ↔
      ¬((400 ≤ c ∧ c < 500) ∨ (500 ≤ c ∧ c < 600) ∨ (300 ≤ c ∧ c < 400))) := by
  have hfd : Int.fdiv c 100 = c / 100 := Int.fdiv_eq_ediv c (by norm_num)
  have hchar : (logRequestMethod c = .warn ↔ c / 100 = 4) ∧
      (logRequestMethod c = .error ↔ c / 100 = 5) ∧
      (logRequestMethod c = .debug ↔ c / 100 = 3) ∧
      (logRequestMethod c = .info ↔ (c / 100 ≠ 4 ∧ c / 100 ≠ 5 ∧ c / 100 ≠ 3)) := by
    unfold logRequestMethod
    simp only [Constants.StatusClasses.SEPARATOR, Constants.StatusClasses.CLIENT_ERROR,
      Constants.StatusClasses.SERVER_ERROR, Constants.StatusClasses.REDIRECT, hfd]
    by_cases h4 : c / 100 = 4 <;> by_cases h5 : c / 100 = 5 <;> by_cases h3 : c / 100 = 3 <;>
      first
        | (exfalso; omega)
        | simp [h4, h5, h3]
  obtain ⟨hw, he, hd, hi⟩ := hchar
  refine ⟨?_, ?_, ?_, ?_⟩
  · rw [hw]; omega
  · rw [he]; omega
  · rw [hd]; omega
  · rw [hi]; omega

/-- Helper: updating the existing `code` property makes it observable with the
assigned value. -/
theorem lookupField_update (fields : List (String × JVal)) (code : Int)
    (h : "code" ∈ fields.map Prod.fst) :
    lookupField (fields.map (fun f => if f.1 = "code" then ("code", JVal.num code) else f))
      "code" = some (JVal.num code) := by
  induction fields with
  | nil => simp at h
  | cons f rest ih =>
    by_cases hf : f.1 = "code"
    · simp [lookupField, hf]
    · have hrest : "code" ∈ rest.map Prod.fst := by
        rcases (by simpa using h : "code" = f.1 ∨ "code" ∈ rest.map Prod.fst) with h1 | h1
        · exact absurd h1.symm hf
        · exact h1
      simpa [lookupField, hf] using ih hrest

/-- Helper: appending a fresh `code` property makes it observable with the
assigned value. -/
theorem lookupField_append_new (fields : List (String × JVal)) (code : Int)
    (h : "code" ∉ fields.map Prod.fst) :
    lookupField (fields ++ [("code", JVal.num code)]) "code" = some (JVal.num code) := by
  induction fields with
  | nil => simp [lookupField]
  | cons f rest ih =>
    have hf : ¬ f.1 = "code" := by
      intro he
      exact h (by simp [he])
    have hrest : "code" ∉ rest.map Prod.fst := by
      intro hm
      exact h (by simp [hm])
    simpa [lookupField, hf] using ih hrest

/-- Helper: after `Object.assign(message, {code})` the object carries the
status code under the `code` property. -/
theorem assignCode_lookup (fields : List (String × JVal)) (code : Int) :
    lookupField (assignCode fields code) "code" = some (JVal.num code) := by
  unfold assignCode
  by_cases hc : "code" ∈ fields.map Prod.fst
  · simpa [hc] using lookupField_update fields code hc
  · simpa [hc] using lookupField_append_new fields code hc

/-- Claim C9: when the `message` argument of `sendGeneralError` is an object,
the status code is merged into that same object in place (the caller's object
gains a `code` property as a side effect) and that mutated object becomes the
envelope body; when the message is a string, a fresh code/message object is
built and the argument is left unchanged. -/
theorem sendGeneralError_message_mutation (code : Int) (fields : List (String × JVal))
    (s : String) (single : Bool) :
    ((sendGeneralError code (.objMsg fields) single).messageAfter =
        .objMsg (assignCode fields code) ∧
      lookupField (assignCode fields code) "code" = some (JVal.num code) ∧
      (sendGeneralError code (.objMsg fields) single).content =
        (if single then JVal.obj [("error", JVal.obj (assignCode fields code))]
         else JVal.obj [("errors", JVal.arr [JVal.obj (assignCode fields code)])])) ∧
    ((sendGeneralError code (.strMsg s) single).messageAfter = .strMsg s ∧
      (sendGeneralError code (.strMsg s) single).content =
        (if single then
          JVal.obj [("error", JVal.obj [("code", JVal.num code), ("message", JVal.str s)])]
         else
          JVal.obj [("errors",
            JVal.arr [JVal.obj [("code", JVal.num code), ("message", JVal.str s)]])])) :=
  ⟨⟨rfl, assignCode_lookup fields code, rfl⟩, rfl, rfl⟩

/-- Helper: in production mode, any error that is not handled as a syntax
error on POST and reaches the handler before headers were sent gets the fixed
generic 500 response. -/
theorem errorHandler_production_generic (e : JSError) (m : String)
    (h : ¬(isSynError e = true ∧ m = "POST")) :
    (errorHandler true false m e).response = some
      { status := 500,
        body := JVal.obj [("errors", JVal.arr [JVal.obj
          [("code", JVal.num 500),
           ("message", JVal.str "Internal Application Error.")]])] } := by
  have hb : (isSynError e && (m == "POST")) = false := by
    cases e with
    | synErr msg st =>
      have hm : ¬ m = "POST" := fun hm => h ⟨rfl, hm⟩
      simp [isSynError, hm]
    | strErr s => simp [isSynError]
    | objErr n msg st => simp [isSynError]
  unfold errorHandler
  simp [hb, sendGeneralError, Constants.Statuses.ERROR, Constants.Statuses.BAD_REQUEST]

/-- Claim C3: in production mode, every error reaching the final error handler
(headers not yet sent, not a JSON syntax error on a POST request) yields
status 500 with the fixed body
`{"errors":[{"code":500,"message":"Internal Application Error."}]}`, and any
two such errors yield identical responses, so no raw error detail reaches the
client in production. -/
theorem errorHandler_production_no_leak (e1 e2 : JSError) (m1 m2 : String)
    (h1 : ¬(isSynError e1 = true ∧ m1 = "POST"))
    (h2 : ¬(isSynError e2 = true ∧ m2 = "POST")) :
    (errorHandler true false m1 e1).response = some
      { status := 500,
        body := JVal.obj [("errors", JVal.arr [JVal.obj
          [("code", JVal.num 500),
           ("message", JVal.str "Internal Application Error.")]])] } ∧
    (errorHandler true false m1 e1).response = (errorHandler true false m2 e2).response := by
  refine ⟨errorHandler_production_generic e1 m1 h1, ?_⟩
  rw [errorHandler_production_generic e1 m1 h1, errorHandler_production_generic e2 m2 h2]

/-- Witness for C3: a thrown string and a thrown TypeError, on GET and PUT,
receive the identical fixed production response. -/
theorem errorHandler_production_no_leak_witness :
    (errorHandler true false "GET" (.strErr "ERROR!")).response = some
      { status := 500,
        body := JVal.obj [("errors", JVal.arr [JVal.obj
          [("code", JVal.num 500),
           ("message", JVal.str "Internal Application Error.")]])] } ∧
    (errorHandler true false "GET" (.strErr "ERROR!")).response =
      (errorHandler true false "PUT" (.objErr "TypeError" "boom" none)).response :=
  errorHandler_production_no_leak (.strErr "ERROR!") (.objErr "TypeError" "boom" none)
    "GET" "PUT" (by simp [isSynError]) (by simp [isSynError])

/-- Counterexample for C7: `sendResponse` never consults the response state —
its write actions are the same on every call — so a second call on a
request/response pair whose headers were already sent still performs a body
write (`res.send("OK")` here): the claimed "does not write a second response
body" fails on the code of `sendResponse` itself. -/
theorem sendResponse_second_call_still_writes :
    ResAction.sendBody (JVal.str "OK") ∈
      sendResponseActions (some 200) (some (JVal.str "OK")) := by
  simp [sendResponseActions]

/-- Claim C7 as amended: the double-send protection lives in `errorHandler`,
not in `sendResponse`: when response headers were already sent, `errorHandler`
is a terminal no-op (no response is written and nothing is logged), while
`sendResponse` itself unconditionally performs a write action on every call. -/
theorem errorHandler_guards_double_send :
    (∀ (production : Bool) (method : String) (error : JSError),
      (errorHandler production true method error).response = none ∧
      (errorHandler production true method error).loggedError = false) ∧
    (∀ (code : Option Int) (content : Option JVal),
      ∃ w ∈ sendResponseActions code content, isWriteAction w = true) := by
  constructor
  · intro production method error
    unfold errorHandler
    simp
  · intro code content
    cases content with
    | none =>
      exact ⟨.endNoBody, by simp [sendResponseActions], rfl⟩
    | some c =>
      refine ⟨.sendBody c, ?_, rfl⟩
      cases c <;> simp [sendResponseActions]

/-- Helper: digit characters are decimal digits. -/
theorem digitChar_isDigit (n : Nat) (h : n < 10) : (digitChar n).isDigit = true := by
  interval_cases n <;> decide

/-- Helper: the fuel-driven digit expansion yields only digit characters. -/
theorem natDigitsAux_allDigits (fuel : Nat) : ∀ n, allDigits (natDigitsAux fuel n) = true := by
  induction fuel with
  | zero => intro n; rfl
  | succ fuel ih =>
    intro n
    unfold natDigitsAux
    by_cases h : n < 10
    · simp [h, allDigits, digitChar_isDigit n h]
    · have h1 := ih (n / 10)
      have h2 : (digitChar (n % 10)).isDigit = true :=
        digitChar_isDigit _ (Nat.mod_lt _ (by norm_num))
      simp only [allDigits, List.all_append] at h1 ⊢
      simp [h, h1, h2]

/-- Helper: with positive fuel the digit expansion is non-empty. -/
theorem natDigitsAux_ne_nil (fuel n : Nat) : natDigitsAux (fuel + 1) n ≠ [] := by
  unfold natDigitsAux
  by_cases h : n < 10 <;> simp [h]

/-- Helper: decimal digits of a natural number are digit characters. -/
theorem natDigits_allDigits (n : Nat) : allDigits (natDigits n) = true :=
  natDigitsAux_allDigits _ n

/-- Helper: the decimal expansion of a natural number is non-empty. -/
theorem natDigits_ne_nil (n : Nat) : natDigits n ≠ [] :=
  natDigitsAux_ne_nil n n

/-- Helper: a list of digit characters is a valid numeral continuation. -/
theorem numericRest_of_allDigits (l : List Char) (h : allDigits l = true) :
    numericRest l = true := by
  induction l with
  | nil => rfl
  | cons c rest ih =>
    simp only [allDigits, List.all_cons, Bool.and_eq_true] at h
    have hcd : ¬ c = '.' := by
      intro he
      rw [he] at h
      exact absurd h.1 (by decide)
    simp [numericRest, hcd, h.1, ih h.2]

/-- Helper: digits, a decimal point, then at least one digit form a valid
numeral continuation. -/
theorem numericRest_append_dot (a b : List Char) (ha : allDigits a = true)
    (hb : allDigits b = true) (hbne : b ≠ []) :
    numericRest (a ++ '.' :: b) = true := by
  induction a with
  | nil =>
    have : b.isEmpty = false := by
      cases b with
      | nil => exact absurd rfl hbne
      | cons x xs => rfl
    simp [numericRest, this, hb]
  | cons c rest ih =>
    simp only [allDigits, List.all_cons, Bool.and_eq_true] at ha
    have hcd : ¬ c = '.' := by
      intro he
      rw [he] at ha
      exact absurd ha.1 (by decide)
    simp [numericRest, hcd, ha.1, ih ha.2]

/-- Helper: a non-empty all-digit list is a decimal numeral. -/
theorem numericChars_of_allDigits (l : List Char) (h : allDigits l = true)
    (hne : l ≠ []) : numericChars l = true := by
  cases l with
  | nil => exact absurd rfl hne
  | cons c rest =>
    simp only [allDigits, List.all_cons, Bool.and_eq_true] at h
    simp [numericChars, h.1, numericRest_of_allDigits rest h.2]

/-- Helper: an integer part, a decimal point and a non-empty fractional part
form a decimal numeral. -/
theorem numericChars_append_dot (a b : List Char) (ha : allDigits a = true)
    (hane : a ≠ []) (hb : allDigits b = true) (hbne : b ≠ []) :
    numericChars (a ++ '.' :: b) = true := by
  cases a with
  | nil => exact absurd rfl hane
  | cons c rest =>
    simp only [allDigits, List.all_cons, Bool.and_eq_true] at ha
    simp [numericChars, ha.1, numericRest_append_dot rest b ha.2 hb hbne]

/-- Helper: fractional digit lists hold only digit characters. -/
theorem fracChars_allDigits (f : Nat) (h : f < 1000) : allDigits (fracChars f) = true := by
  have h1 : f / 100 < 10 := by omega
  have h2 : f / 10 % 10 < 10 := Nat.mod_lt _ (by norm_num)
  have h3 : f % 10 < 10 := Nat.mod_lt _ (by norm_num)
  unfold fracChars
  split
  · simp [allDigits, digitChar_isDigit _ h1, digitChar_isDigit _ h2, digitChar_isDigit _ h3]
  · split
    · simp [allDigits, digitChar_isDigit _ h1, digitChar_isDigit _ h2]
    · simp [allDigits, digitChar_isDigit _ h1]

/-- Helper: fractional digit lists are never empty. -/
theorem fracChars_ne_nil (f : Nat) : fracChars f ≠ [] := by
  unfold fracChars
  split
  · simp
  · split <;> simp

/-- Claim C8: for every `GET /ping` request the response has status 200,
Content-Type `text/plain`, body exactly "pong", and an `X-Up-Time` header
whose value is the process uptime in milliseconds as a numeric string
followed by the suffix "ms". -/
theorem ping_response (uptimeMicros : Nat) :
    (pingHandler uptimeMicros).status = 200 ∧
    (pingHandler uptimeMicros).contentType = "text/plain" ∧
    (pingHandler uptimeMicros).body = "pong" ∧
    (pingHandler uptimeMicros).upTime = msString uptimeMicros ++ "ms" ∧
    isNumericString (msString uptimeMicros) = true := by
  refine ⟨rfl, rfl, rfl, rfl, ?_⟩
  show numericChars (msChars uptimeMicros) = true
  unfold msChars
  by_cases h : uptimeMicros % 1000 = 0
  · simp only [h, if_true, reduceIte]
    exact numericChars_of_allDigits _ (natDigits_allDigits _) (natDigits_ne_nil _)
  · simp only [h, if_false, reduceIte]
    exact numericChars_append_dot _ _ (natDigits_allDigits _) (natDigits_ne_nil _)
      (fracChars_allDigits _ (Nat.mod_lt _ (by norm_num))) (fracChars_ne_nil _)

/-- Claim C4: on receipt of any of SIGTERM, SIGINT or SIGUSR2 while
listening, every socket in the tracked set is destroyed (all destroy actions
precede the listener close), then the listener is closed (the final action),
and the pending `execute` promise resolves when the close callback reports no
error and rejects with exactly the reported error otherwise. -/
theorem termination_signal_shutdown (signal : String)
    (_hs : signal ∈ terminationSignals) (sockets : List Nat)
    (closeError : Option String) :
    (∀ s ∈ sockets, ShutdownAction.destroy s ∈
      (onTerminationSignal signal sockets closeError).1.dropLast) ∧
    (onTerminationSignal signal sockets closeError).1.getLast? =
      some ShutdownAction.closeListener ∧
    (∀ a ∈ (onTerminationSignal signal sockets closeError).1.dropLast,
      a ≠ ShutdownAction.closeListener) ∧
    (closeError = none →
      (onTerminationSignal signal sockets closeError).2 = ExecOutcome.resolved) ∧
    (∀ e, closeError = some e →
      (onTerminationSignal signal sockets closeError).2 = ExecOutcome.rejected e) := by
  have hdrop : (onTerminationSignal signal sockets closeError).1.dropLast =
      sockets.map ShutdownAction.destroy := by
    simp [onTerminationSignal, signalHandlerActions]
  refine ⟨?_, ?_, ?_, ?_, ?_⟩
  · intro s hsmem
    rw [hdrop]
    exact List.mem_map_of_mem _ hsmem
  · simp [onTerminationSignal, signalHandlerActions]
  · intro a ha
    rw [hdrop] at ha
    obtain ⟨s, _, rfl⟩ := List.mem_map.mp ha
    intro hcontra
    exact absurd hcontra (by simp)
  · intro h
    simp [onTerminationSignal, closeSettle, h]
  · intro e h
    simp [onTerminationSignal, closeSettle, h]

/-- Witness for C4: SIGUSR2 with two tracked sockets and an error-free close:
both sockets are destroyed before the close and the promise resolves. -/
theorem termination_signal_shutdown_witness :
    ("SIGUSR2" ∈ terminationSignals) ∧
    (∀ s ∈ [5, 7], ShutdownAction.destroy s ∈
      (onTerminationSignal "SIGUSR2" [5, 7] none).1.dropLast) ∧
    (onTerminationSignal "SIGUSR2" [5, 7] none).2 = ExecOutcome.resolved := by
  have hmem : "SIGUSR2" ∈ terminationSignals := by
    simp [terminationSignals]
  have h := termination_signal_shutdown "SIGUSR2" hmem [5, 7] none
  exact ⟨hmem, h.1, h.2.2.2.1 rfl⟩

/-- Claim C10: in the class variant's `addCORSHandling`, when a default origin
is configured and the request also carries a (non-empty) Origin header, the
`Access-Control-Allow-Origin` header takes the request's Origin value, not the
configured one; the configured origin is used only when the request carries no
Origin header. -/
theorem addCORSHandling_prefers_request_origin (o ro : String)
    (headers methods : Option String) (maxAge : Option Nat)
    (ho : o ≠ "") (hro : ro ≠ "") :
    (addCORSHandling (some o) headers methods maxAge (some ro)).map
      (fun h => h.allowOrigin) = some (some ro) ∧
    (addCORSHandling (some o) headers methods maxAge none).map
      (fun h => h.allowOrigin) = some (some o) := by
  constructor
  · simp [addCORSHandling, jsOrStr, strTruthy, ho, hro]
  · simp [addCORSHandling, jsOrStr, strTruthy, ho]

/-- Witness for C10: configured origin "http://a" with request Origin
"http://b" answers "http://b"; with no request Origin it answers "http://a". -/
theorem addCORSHandling_prefers_request_origin_witness :
    (addCORSHandling (some "http://a") none none none (some "http://b")).map
      (fun h => h.allowOrigin) = some (some "http://b") ∧
    (addCORSHandling (some "http://a") none none none none).map
      (fun h => h.allowOrigin) = some (some "http://a") :=
  addCORSHandling_prefers_request_origin "http://a" "http://b" none none none
    (by decide) (by decide)

/-- Counterexample for C1: a PUT request with Content-Type `text/plain` and
the non-empty body "hello" does raise the synchronous malformed-content-type
error, but because its method is not POST the error handler does not take the
400 branch: the client receives status 500, not 400 — the claimed
"regardless of the request method" fails. -/
theorem nonjson_body_400_counterexample :
    (pipelineErrorResponse false
        { method := "PUT", contentType := some "text/plain", rawBody := "hello" }).map
      (fun hr => hr.response.map Response.status) = some (some 500) ∧
    ((500 : Int) ≠ 400) := by
  exact ⟨rfl, by decide⟩

/-- Claim C1 as amended: for every request whose Content-Type does not match
`application/(.+\+)?json` and whose decoded text body is non-empty, the
pipeline raises a synchronous SyntaxError before any route handler runs (for
every method); the client receives status 400 with message "Invalid JSON POST
data received." when — and only in the amended form — the request method is
POST. -/
theorem nonjson_nonempty_body_rejected_before_routes (r : Request) (production : Bool)
    (hct : validJsonBodyTest (contentTypeHeaderString r.contentType) = false)
    (hbody : r.rawBody.length ≠ 0) :
    processBody r = .raised (.synErr validJsonBodyMessage none) ∧
    (r.method = "POST" →
      pipelineErrorResponse production r = some
        { response := some
            { status := 400,
              body := JVal.obj [("errors", JVal.arr [JVal.obj
                [("code", JVal.num 400),
                 ("message", JVal.str "Invalid JSON POST data received."),
                 ("error", JVal.str validJsonBodyMessage)]])] },
          loggedError := false }) := by
  have hpb : processBody r = .raised (.synErr validJsonBodyMessage none) := by
    unfold processBody
    rw [hct]
    simp [hbody]
  refine ⟨hpb, fun hm => ?_⟩
  unfold pipelineErrorResponse
  rw [hpb, hm]
  unfold errorHandler
  simp [isSynError, Constants.Statuses.BAD_REQUEST, errorMessage]

/-- Witness for C1 (amended): a POST of the body "FOO" with Content-Type
`text/plain` is rejected before the routes with the 400 envelope. -/
theorem nonjson_nonempty_body_rejected_before_routes_witness :
    processBody { method := "POST", contentType := some "text/plain", rawBody := "FOO" } =
      .raised (.synErr validJsonBodyMessage none) ∧
    pipelineErrorResponse true
        { method := "POST", contentType := some "text/plain", rawBody := "FOO" } = some
      { response := some
          { status := 400,
            body := JVal.obj [("errors", JVal.arr [JVal.obj
              [("code", JVal.num 400),
               ("message", JVal.str "Invalid JSON POST data received."),
               ("error", JVal.str validJsonBodyMessage)]])] },
        loggedError := false } := by
  have h := nonjson_nonempty_body_rejected_before_routes
    { method := "POST", contentType := some "text/plain", rawBody := "FOO" } true rfl
    (by decide)
  exact ⟨h.1, h.2 rfl⟩

/-- Counterexample for C2: with the environment variable PORT set to "9999"
and a (sanitized) configuration port of 21080, the class variant's `prepare`
parses 9999 into `this.port` but `execute` passes the configuration port
21080 to `listen` — the port passed to listen is not the parsed PORT
value. -/
theorem class_execute_ignores_env_port :
    preparePort (some "9999") 21080 = some 9999 ∧
    executeListenPort 21080 = 21080 ∧
    executeListenPort 21080 ≠ 9999 := by
  refine ⟨rfl, rfl, by decide⟩

/-- Claim C2 as amended: in the namespace variant, when the PORT environment
variable is set (truthy) and `parseInt` yields a non-negative value, the port
passed to `listen` equals that parsed value (negative or NaN results fall
back to the default port); the class variant passes the configuration port to
`listen` regardless of PORT. -/
theorem env_port_override_namespace_variant (envPORT : Option String) (configPort v : Int)
    (henv : strTruthy envPORT = true) (hp : parseIntJS (envPORT.getD "") = some v)
    (hv : 0 ≤ v) :
    configureExpressPort envPORT configPort = v ∧
    executeListenPort configPort = configPort := by
  refine ⟨?_, rfl⟩
  unfold configureExpressPort
  simp only [henv, if_true, hp]
  rw [if_neg (by omega : ¬ v < 0)]

/-- Witness for C2 (amended): PORT="123" with configuration port 8080 makes
the namespace variant listen on 123 while the class variant still listens on
8080. -/
theorem env_port_override_namespace_variant_witness :
    configureExpressPort (some "123") 8080 = 123 ∧
    executeListenPort 8080 = 8080 :=
  env_port_override_namespace_variant (some "123") 8080 123 (by decide) rfl (by decide)

/-- Counterexample for C6: a configuration with the negative port -5 is
non-positive, yet sanitization keeps it (JavaScript `!port` is false for
negative numbers), so the resolved port is -5, not the default constant
21080. -/
theorem sanitize_negative_port_counterexample :
    ((sanitizeConfiguration
        { httpServer := some { port := some (-5), maxBodySize := none, ssl := none },
          other := [] }).httpServer.map (fun hs => hs.port)) = some (some (-5)) ∧
    ((-5 : Int) ≤ 0) ∧ ((-5 : Int) ≠ defaultPort) := by
  refine ⟨rfl, by decide, by decide⟩

/-- Helper: the ssl defaulting step never changes the port field. -/
theorem sanitizeSsl_port (hs : HttpServerConf) : (sanitizeSsl hs).port = hs.port := by
  unfold sanitizeSsl
  split <;> rfl

/-- Helper: the ssl defaulting step never changes the maxBodySize field. -/
theorem sanitizeSsl_maxBodySize (hs : HttpServerConf) :
    (sanitizeSsl hs).maxBodySize = hs.maxBodySize := by
  unfold sanitizeSsl
  split <;> rfl

/-- Claim C6 as amended: after sanitization the `httpServer` section is the
sanitized section and everything else in the configuration is unchanged; a
port that is absent or zero resolves to the fixed default constant 21080 of
this variant, while any non-zero port — negative ports included, contrary to
the original "non-positive" claim — is kept; a missing ssl section resolves
to `{enabled: false}` and a present one is kept; the `maxBodySize` field is
unchanged. -/
theorem sanitizeConfiguration_defaults (c : AppConfiguration) :
    (sanitizeConfiguration c).other = c.other ∧
    (sanitizeConfiguration c).httpServer =
      some (sanitizeHttp (c.httpServer.getD emptyHttpConf)) ∧
    ∀ h : HttpServerConf,
      (((h.port = none ∨ h.port = some 0) → (sanitizeHttp h).port = some defaultPort) ∧
       (∀ p, h.port = some p → p ≠ 0 → (sanitizeHttp h).port = some p) ∧
       (h.ssl = none → (sanitizeHttp h).ssl =
         some { enabled := false, key := none, certificate := none }) ∧
       (∀ s, h.ssl = some s → (sanitizeHttp h).ssl = some s) ∧
       (sanitizeHttp h).maxBodySize = h.maxBodySize) := by
  refine ⟨rfl, rfl, ?_⟩
  intro h
  refine ⟨?_, ?_, ?_, ?_, ?_⟩
  · intro hcase
    have hnt : numTruthy h.port = false := by
      rcases hcase with h0 | h0 <;> simp [numTruthy, h0]
    unfold sanitizeHttp
    rw [sanitizeSsl_port]
    simp [hnt]
  · intro p hp hp0
    unfold sanitizeHttp
    rw [sanitizeSsl_port]
    simp [numTruthy, hp, hp0]
  · intro hssl
    unfold sanitizeHttp sanitizeSsl
    by_cases hnt : numTruthy h.port = true <;> simp [hnt, hssl]
  · intro s hssl
    unfold sanitizeHttp sanitizeSsl
    by_cases hnt : numTruthy h.port = true <;> simp [hnt, hssl]
  · unfold sanitizeHttp
    rw [sanitizeSsl_maxBodySize]
    by_cases hnt : numTruthy h.port = true <;> simp [hnt]

/-- Witness for C6 (amended): an entirely missing `httpServer` section
resolves to the default port 21080 and `ssl = {enabled: false}`. -/
theorem sanitizeConfiguration_defaults_witness :
    (sanitizeConfiguration { httpServer := none, other := [] }).httpServer =
      some (sanitizeHttp emptyHttpConf) ∧
    (sanitizeHttp emptyHttpConf).port = some defaultPort ∧
    (sanitizeHttp emptyHttpConf).ssl =
      some { enabled := false, key := none, certificate := none } := by
  have t := sanitizeConfiguration_defaults { httpServer := none, other := [] }
  exact ⟨t.2.1, (t.2.2 emptyHttpConf).1 (Or.inl rfl), (t.2.2 emptyHttpConf).2.2.1 rfl⟩
